import Mathlib

/-!
Verification of the portfolio backend service (src/main.py).

The service exposes read-only HTTP endpoints over two local JSON files
(profile.json and diary.json) plus a diagnostic endpoint probing an
optional database module.  We shallowly embed the handler functions:

* JSON values are the inductive `Json` (numbers as `Int`; objects as
  association lists with unique keys, as produced by json.load).
* The state of each file on disk is a `FileState`: the file is absent,
  present but failing to parse (json.load raises an exception whose
  string representation is the given message), or present with parsed
  content.
* An HTTP response is a status code and a JSON body; a raised
  HTTPException with detail d becomes a response whose body is the
  object with single key "detail" bound to d, matching the framework
  serialization.
-/

inductive Json where
  | null : Json
  | bool (b : Bool) : Json
  | num (n : Int) : Json
  | str (s : String) : Json
  | arr (xs : List Json) : Json
  | obj (kvs : List (String × Json)) : Json

/-- First binding of a key in a parsed JSON object (keys are unique after
json.load, which keeps the last duplicate, so first = only). Models both
the Python membership test `k in data` (via `Option.isSome`) and the
subscript `data[k]`. -/
def lookupKey (k : String) : List (String × Json) → Option Json
  | [] => none
  | (k2, v) :: rest => if k2 == k then some v else lookupKey k rest

/-- State of one JSON file on disk, as observable by the service. -/
inductive FileState where
  | absent : FileState
  | invalid (msg : String) : FileState
  | valid (j : Json) : FileState

/-- Outcome of `read_json_file`: FileNotFoundError, some other exception
(carrying its string representation), or the parsed value. -/
inductive ReadResult where
  | notFound (msg : String) : ReadResult
  | failed (msg : String) : ReadResult
  | ok (j : Json) : ReadResult

def BACKEND_DIR : String := "."

def PROFILE_PATH : String := BACKEND_DIR ++ "/profile.json"

def DIARY_PATH : String := BACKEND_DIR ++ "/diary.json"

/-- src/main.py `read_json_file`: raise FileNotFoundError when the path
does not exist, otherwise open for reading and json.load (whose failures
surface as a generic exception). -/
def read_json_file (path : String) (s : FileState) : ReadResult :=
  match s with
  | .absent => .notFound ("File not found: " ++ path)
  | .invalid m => .failed m
  | .valid j => .ok j

structure Response where
  status : Nat
  body : Json

/-- Body of an HTTPException response: the object with a single
"detail" field. -/
def detailJson (m : String) : Json := .obj [("detail", .str m)]

def err500 (m : String) : Response := { status := 500, body := detailJson m }

def ok200 (j : Json) : Response := { status := 200, body := j }

/-- The detail string of an error response, when the body has that shape. -/
def Response.detail : Response → Option String
  | r =>
    match r.body with
    | .obj [("detail", .str s)] => some s
    | _ => none

/-- src/main.py `get_profile` (GET /api/profile): read profile.json; 404
with guidance text when missing; 500 carrying str(e) on any other
exception; otherwise return the parsed data. -/
def get_profile (profile : FileState) : Response :=
  match read_json_file PROFILE_PATH profile with
  | .ok data => ok200 data
  | .notFound _ =>
      { status := 404
        body := detailJson "profile.json not found. Add it to the backend root." }
  | .failed e => err500 e

/-- Python truth test on the result of isinstance(data, dict) and
"items" in data. -/
def hasItems : Json → Bool
  | .obj kvs => (lookupKey "items" kvs).isSome
  | _ => false

/-- The value data["items"]; only meaningful when `hasItems` holds. -/
def itemsOf : Json → Json
  | .obj kvs => (lookupKey "items" kvs).getD .null
  | _ => .null

/-- isinstance(data, list). -/
def Json.isList : Json → Bool
  | .arr _ => true
  | _ => false

/-- src/main.py `list_diary` (GET /api/diary): read diary.json; return
data["items"] when data is a dict containing "items", data itself when
it is a list, the empty list otherwise; the empty list when the file is
missing; 500 carrying str(e) on any other exception. -/
def list_diary (diary : FileState) : Response :=
  match read_json_file DIARY_PATH diary with
  | .ok data =>
      if hasItems data then ok200 (itemsOf data)
      else if data.isList then ok200 data
      else ok200 (.arr [])
  | .notFound _ => ok200 (.arr [])
  | .failed e => err500 e

/-- Name of the Python type of a JSON value, as it appears in
AttributeError / TypeError messages. -/
def pyTypeName : Json → String
  | .null => "NoneType"
  | .bool _ => "bool"
  | .num _ => "int"
  | .str _ => "str"
  | .arr _ => "list"
  | .obj _ => "dict"

def diaryNotFound : Response := { status := 404, body := detailJson "Diary item not found" }

/-- The loop condition item.get("id") == item_id, under Python equality
of a JSON value (or None for a missing key) against a str.  Only
meaningful on dict items; see `scanItems` for the non-dict case. -/
def idMatches (j : Json) (item_id : String) : Bool :=
  match j with
  | .obj kvs =>
      match lookupKey "id" kvs with
      | some (.str s) => s == item_id
      | _ => false
  | _ => false

/-- The loop of `get_diary_item`: for item in items, return the first
item with item.get("id") == item_id; 404 when the loop finishes.  A
non-dict element reached before a match makes item.get raise
AttributeError, which the endpoint surfaces as a 500. -/
def scanItems (item_id : String) : List Json → Response
  | [] => diaryNotFound
  | item :: rest =>
    match item with
    | .obj kvs =>
        if idMatches (.obj kvs) item_id
        then ok200 (.obj kvs)
        else scanItems item_id rest
    | other =>
        err500 ("\x27" ++ pyTypeName other ++ "\x27 object has no attribute \x27get\x27")

/-- src/main.py `get_diary_item` (GET /api/diary/X): obtain the diary
list via `list_diary`; a raised HTTPException (the 500 of `list_diary`)
propagates unchanged through the `except HTTPException: raise` arm.
Otherwise iterate over the returned value with Python for-loop
semantics: over a list, scan elements; over a dict, iterate its keys
(strings, so .get raises AttributeError unless the dict is empty); over
a string, iterate characters likewise; other types raise TypeError.
Any such exception is caught and surfaced as a 500 carrying str(e). -/
def get_diary_item (diary : FileState) (item_id : String) : Response :=
  let ld := list_diary diary
  if ld.status == 200 then
    match ld.body with
    | .arr xs => scanItems item_id xs
    | .obj [] => diaryNotFound
    | .obj (_ :: _) => err500 "\x27str\x27 object has no attribute \x27get\x27"
    | .str s =>
        if s.isEmpty then diaryNotFound
        else err500 "\x27str\x27 object has no attribute \x27get\x27"
    | other => err500 ("\x27" ++ pyTypeName other ++ "\x27 object is not iterable")
  else ld

/-- Environment and database-module situation observed by GET /test:
the import of `database` raises ImportError, raises some other
exception, binds db to None, or yields a db object (with an optional
`name` attribute, and whose list_collection_names either returns a list
or raises). -/
inductive DbState where
  | importError : DbState
  | importFailed (msg : String) : DbState
  | dbNone : DbState
  | dbSome (nameAttr : Option String) (collections : Except String (List String)) : DbState

structure TestResponse where
  backend : String
  database : String
  database_url : Option String
  database_name : Option String
  connection_status : String
  collections : List String

/-- Python truth test on os.getenv: unset and the empty string are
falsy. -/
def pyTruthy : Option String → Bool
  | none => false
  | some s => !s.isEmpty

/-- src/main.py `test_database` (GET /test): build the default response
dict, probe the optional database module with every failure converted
into a descriptive status string, cap the listed collection names at 10,
then overwrite database_url / database_name from the presence of the two
environment variables.  The handler never raises, so the HTTP status is
always 200. -/
def test_database (dbs : DbState) (url dbname : Option String) : Nat × TestResponse :=
  let r0 : TestResponse :=
    { backend := "✅ Running"
      database := "❌ Not Available"
      database_url := none
      database_name := none
      connection_status := "Not Connected"
      collections := [] }
  let r1 : TestResponse :=
    match dbs with
    | .importError =>
        { r0 with database := "❌ Database module not found (run enable-database first)" }
    | .importFailed m => { r0 with database := "❌ Error: " ++ m.take 50 }
    | .dbNone => { r0 with database := "⚠️  Available but not initialized" }
    | .dbSome nameAttr colls =>
        let r :=
          { r0 with
            database := "✅ Available"
            database_url := some "✅ Configured"
            database_name := some (match nameAttr with
              | some s => s
              | none => "✅ Connected")
            connection_status := "Connected" }
        match colls with
        | .ok cs => { r with collections := cs.take 10, database := "✅ Connected & Working" }
        | .error e => { r with database := "⚠️  Connected but Error: " ++ e.take 50 }
  let r2 : TestResponse :=
    { r1 with
      database_url := some (if pyTruthy url then "✅ Set" else "❌ Not Set")
      database_name := some (if pyTruthy dbname then "✅ Set" else "❌ Not Set") }
  (200, r2)

/-- On-disk state seen by the service: the two JSON files. -/
structure FS where
  profile : FileState
  diary : FileState

inductive Request where
  | root : Request
  | profileGet : Request
  | diaryList : Request
  | diaryItem (item_id : String) : Request
  | test (dbs : DbState) (url dbname : Option String) : Request

inductive AnyBody where
  | http (r : Response) : AnyBody
  | diag (status : Nat) (t : TestResponse) : AnyBody

/-- Top-level request dispatch, threading the file-system state.  Every
file access in the source opens with mode "r" and there is no write
call, so each handler returns the state it was given. -/
def handle : Request → FS → AnyBody × FS
  | .root, s => (.http (ok200 (.obj [("message", .str "Portfolio Backend Running")])), s)
  | .profileGet, s => (.http (get_profile s.profile), s)
  | .diaryList, s => (.http (list_diary s.diary), s)
  | .diaryItem iid, s => (.http (get_diary_item s.diary iid), s)
  | .test dbs u n, s =>
      let r := test_database dbs u n
      (.diag r.1 r.2, s)

/-- String containment test used to state the guidance-text claim. -/
def containsAux (needle : List Char) : List Char → Bool
  | [] => needle.isEmpty
  | c :: t => needle.isPrefixOf (c :: t) || containsAux needle t

def strContains (hay needle : String) : Bool :=
  containsAux needle.data hay.data

/-- A string-valued required field, per the pydantic models. -/
def strField (k : String) (kvs : List (String × Json)) : Bool :=
  match lookupKey k kvs with
  | some (.str _) => true
  | _ => false

/-- An Optional[str] field: absent, null, or a string. -/
def optStrField (k : String) (kvs : List (String × Json)) : Bool :=
  match lookupKey k kvs with
  | none => true
  | some .null => true
  | some (.str _) => true
  | _ => false

/-- The SocialLink model shape: an object with string label and url. -/
def isSocialLink (j : Json) : Bool :=
  match j with
  | .obj kvs => strField "label" kvs && strField "url" kvs
  | _ => false

/-- The Profile model shape: name and photo_url strings, optional
tagline, socials a list of SocialLink objects. -/
def isProfileShape : Json → Bool
  | .obj kvs =>
      strField "name" kvs && strField "photo_url" kvs && optStrField "tagline" kvs &&
      (match lookupKey "socials" kvs with
       | some (.arr xs) => xs.all isSocialLink
       | _ => false)
  | _ => false

/-- The DiaryItem model shape: id, title, date strings; optional summary
and content. -/
def isDiaryItemShape : Json → Bool
  | .obj kvs =>
      strField "id" kvs && strField "title" kvs && strField "date" kvs &&
      optStrField "summary" kvs && optStrField "content" kvs
  | _ => false


/-- Concrete profile from the spec scenario: name Ada, photo a.png, one
social link. -/
def adaJson : Json :=
  .obj [("name", .str "Ada"), ("photo_url", .str "a.png"),
        ("socials", .arr [.obj [("label", .str "site"), ("url", .str "http://x")]])]

/-- Concrete diary entry from the spec scenario. -/
def day1Json : Json :=
  .obj [("id", .str "1"), ("title", .str "Day1"), ("date", .str "2024-01-01")]

/-- C1: for every valid profile.json content (an object matching the
Profile shape), GET /api/profile returns exactly that parsed content
with status 200 — no field added, removed, or altered. -/
theorem spec_profile_valid_roundtrip (j : Json) (h : isProfileShape j = true) :
    get_profile (.valid j) = ok200 j := rfl

theorem spec_profile_valid_roundtrip_witness :
    isProfileShape adaJson = true ∧ get_profile (.valid adaJson) = ok200 adaJson :=
  ⟨by decide, spec_profile_valid_roundtrip adaJson (by decide)⟩

/-- The element-scanning loop agrees with first-match-in-list-order when
every element is DiaryItem-shaped (in particular a JSON object, so that
item.get never raises). -/
theorem scanItems_eq_find (item_id : String) (xs : List Json)
    (h : ∀ j ∈ xs, isDiaryItemShape j = true) :
    scanItems item_id xs =
      (match xs.find? (fun j => idMatches j item_id) with
       | some j => ok200 j
       | none => diaryNotFound) := by
  induction xs with
  | nil => rfl
  | cons a t ih =>
    have ha : isDiaryItemShape a = true := h a (by simp)
    have ht : ∀ j ∈ t, isDiaryItemShape j = true := fun j hj => h j (by simp [hj])
    cases a with
    | obj kvs =>
      simp only [scanItems, List.find?]
      cases hb : idMatches (Json.obj kvs) item_id with
      | true => simp
      | false => simpa using ih ht
    | null => simp [isDiaryItemShape] at ha
    | bool b => simp [isDiaryItemShape] at ha
    | num n => simp [isDiaryItemShape] at ha
    | str s => simp [isDiaryItemShape] at ha
    | arr ys => simp [isDiaryItemShape] at ha

/-- C2: for every diary list (of DiaryItem-shaped objects) and id, the
item endpoint returns the first item whose id field equals the request
(status 200), and 404 when no item matches; with diary.json missing the
list is empty, so the endpoint returns 404. -/
theorem spec_diary_item_lookup (xs : List Json) (item_id : String)
    (h : ∀ j ∈ xs, isDiaryItemShape j = true) :
    (get_diary_item (.valid (.arr xs)) item_id =
       match xs.find? (fun j => idMatches j item_id) with
       | some j => ok200 j
       | none => diaryNotFound) ∧
    get_diary_item .absent item_id = diaryNotFound :=
  ⟨scanItems_eq_find item_id xs h, rfl⟩

theorem spec_diary_item_lookup_witness :
    (∀ j ∈ [day1Json], isDiaryItemShape j = true) ∧
    ((get_diary_item (.valid (.arr [day1Json])) "1" =
        match [day1Json].find? (fun j => idMatches j "1") with
        | some j => ok200 j
        | none => diaryNotFound) ∧
      get_diary_item .absent "1" = diaryNotFound) :=
  ⟨by decide, spec_diary_item_lookup [day1Json] "1" (by decide)⟩

/-- C3: a diary.json parsing to a bare array is returned unchanged and
in order; one parsing to an object with an "items" key returns the value
of "items" unchanged. -/
theorem spec_diary_list_shapes (xs : List Json) (kvs : List (String × Json)) (v : Json)
    (h : lookupKey "items" kvs = some v) :
    list_diary (.valid (.arr xs)) = ok200 (.arr xs) ∧
    list_diary (.valid (.obj kvs)) = ok200 v := by
  refine ⟨rfl, ?_⟩
  simp [list_diary, read_json_file, hasItems, itemsOf, h]

theorem spec_diary_list_shapes_witness :
    lookupKey "items" [("items", Json.arr [day1Json])] = some (Json.arr [day1Json]) ∧
    (list_diary (.valid (.arr [day1Json])) = ok200 (.arr [day1Json]) ∧
      list_diary (.valid (.obj [("items", Json.arr [day1Json])])) = ok200 (.arr [day1Json])) :=
  ⟨rfl, spec_diary_list_shapes [day1Json] [("items", Json.arr [day1Json])] (Json.arr [day1Json]) rfl⟩

/-- C4: when diary.json does not exist, GET /api/diary returns the empty
array with status 200, not an error. -/
theorem spec_diary_missing_empty : list_diary .absent = ok200 (.arr []) := rfl

/-- C5: when profile.json does not exist, GET /api/profile returns 404
and its detail message mentions profile.json. -/
theorem spec_profile_missing_404 :
    (get_profile .absent).status = 404 ∧
    strContains (((get_profile .absent).detail).getD "") "profile.json" = true :=
  ⟨rfl, by decide⟩

/-- C6: any exception other than file-not-found surfaces as a 500 whose
detail equals the string representation of the exception, for all three
file-backed endpoints; the diary-item endpoint re-raises a
previously-raised HTTP failure unchanged (the 500 of list_diary, and its
own 404), and its catch-all turns an unexpected exception (here:
iterating a non-iterable diary value) into a 500 carrying str(e). -/
theorem spec_error_surfacing (m item_id : String) :
    get_profile (.invalid m) = err500 m ∧
    list_diary (.invalid m) = err500 m ∧
    get_diary_item (.invalid m) item_id = list_diary (.invalid m) ∧
    get_diary_item (.valid (.arr [])) item_id = diaryNotFound ∧
    get_diary_item (.valid (.obj [("items", .num 3)])) item_id =
      err500 "\x27int\x27 object is not iterable" :=
  ⟨rfl, rfl, rfl, rfl, rfl⟩

/-- C7: GET /test returns status 200 for every combination of
database-module availability, connection outcome and environment
variables; probe failures become descriptive status strings in the
database field rather than an error response. -/
theorem spec_test_always_200 (dbs : DbState) (url dbname : Option String) (m : String) :
    (test_database dbs url dbname).1 = 200 ∧
    (test_database .importError url dbname).2.database =
      "❌ Database module not found (run enable-database first)" ∧
    (test_database (.importFailed m) url dbname).2.database = "❌ Error: " ++ m.take 50 :=
  ⟨rfl, rfl, rfl⟩

/-- C8: no request mutates the on-disk JSON files: the file-system state
after handling any request equals the state before it (the source opens
files for reading only and contains no write). -/
theorem spec_no_writes (req : Request) (s : FS) : (handle req s).2 = s := by
  cases req <;> rfl

/-- C9: when diary.json parses to a value that is neither a list nor an
object containing an "items" key, GET /api/diary silently returns the
empty array with status 200. -/
theorem spec_diary_other_shape_empty (j : Json)
    (h1 : j.isList = false) (h2 : hasItems j = false) :
    list_diary (.valid j) = ok200 (.arr []) := by
  simp [list_diary, read_json_file, h1, h2]

theorem spec_diary_other_shape_empty_witness :
    (Json.isList (.str "oops") = false ∧ hasItems (.str "oops") = false) ∧
    list_diary (.valid (.str "oops")) = ok200 (.arr []) :=
  ⟨⟨rfl, rfl⟩, spec_diary_other_shape_empty (.str "oops") rfl rfl⟩

/-- C10: the collections field of the GET /test response never has more
than 10 entries; when collection names can be listed, exactly the first
10 are included. -/
theorem spec_collections_capped (dbs : DbState) (url dbname : Option String)
    (nameAttr : Option String) (cs : List String) :
    (test_database dbs url dbname).2.collections.length ≤ 10 ∧
    (test_database (.dbSome nameAttr (.ok cs)) url dbname).2.collections = cs.take 10 := by
  refine ⟨?_, rfl⟩
  cases dbs with
  | importError => simp [test_database]
  | importFailed m => simp [test_database]
  | dbNone => simp [test_database]
  | dbSome nm colls =>
    cases colls with
    | ok cs2 =>
      have hcol : (test_database (.dbSome nm (.ok cs2)) url dbname).2.collections =
          cs2.take 10 := rfl
      rw [hcol, List.length_take]
      exact min_le_left _ _
    | error e => simp [test_database]
